import Mathlib

/-!
Shallow embedding of the activity-tracker bot in `src/main.py` (the single
source file of the repository), together with proofs about the claims of
the specification.

Dates are modelled as integers (days since an arbitrary epoch); machine
identifiers (guild, user, channel, role ids) are integers.  The Postgres
tables are modelled as association lists keyed by their primary keys; the
primary-key constraints of the schema (`PRIMARY KEY (guild_id, user_id)`,
`guild_id PRIMARY KEY`) justify the first-match upsert semantics used
below.
-/

namespace RoyalActivity

/-- Embedding of Python's `date.weekday()` on a day number `d` counted from
1970-01-01 (a Thursday): Monday is 0 ... Sunday is 6. -/
def pyWeekday (d : Int) : Int := (d + 3) % 7

/-- Embedding of `today - datetime.timedelta(days=today.weekday())` computed
in `on_message` (src/main.py:149): the Monday of the week containing `d`. -/
def weekStartOf (d : Int) : Int := d - pyWeekday d

/-- A row of the `user_activity` table (src/main.py:75-85).  Column defaults
are applied at the call sites that insert rows. -/
structure UserActivity where
  guild_id : Int
  user_id : Int
  last_active_date : Int
  online_days : Int
  offline_days : Int
  week_start : Int
  total_online : Int
  total_offline : Int
deriving DecidableEq, Repr

/-- Row predicate for the `user_activity` primary key `(guild_id, user_id)`. -/
def rowMatches (g u : Int) (r : UserActivity) : Bool :=
  decide (r.guild_id = g ∧ r.user_id = u)

/-- Lookup of the `user_activity` row for `(g, u)`: the table's primary key
guarantees at most one matching row, so first-match lookup is faithful. -/
def findRow (g u : Int) : List UserActivity → Option UserActivity
  | [] => none
  | r :: rest => if rowMatches g u r then some r else findRow g u rest

/-- The `VALUES` tuple of the insert in `on_message` (src/main.py:152-154):
`(guild, user, today, 1, 0, week_start, 1, 0)`. -/
def insertRow (g u d ws : Int) : UserActivity :=
  ⟨g, u, d, 1, 0, ws, 1, 0⟩

/-- The `ON CONFLICT ... DO UPDATE` branch of the upsert in `on_message`
(src/main.py:155-169), including its `WHERE user_activity.last_active_date <> $3`
guard: when the stored date already equals the event date the update is
skipped and the row is returned unchanged; otherwise `last_active_date`
becomes the event date, `online_days` becomes
`GREATEST(online_days + 1, 1)` within the same week bucket and `1`
otherwise, `offline_days` is kept within the same week bucket and zeroed
otherwise, `week_start` becomes the excluded week start, and
`total_online` is incremented.  Neither `offline_days` nor `total_offline`
is incremented by any branch. -/
def conflictUpdate (r : UserActivity) (d ws : Int) : UserActivity :=
  if r.last_active_date = d then r
  else
    { r with
      last_active_date := d
      online_days := if ws = r.week_start then max (r.online_days + 1) 1 else 1
      offline_days := if ws = r.week_start then r.offline_days else 0
      week_start := ws
      total_online := r.total_online + 1 }

/-- The whole activity-recorder write path of `on_message`
(src/main.py:145-170) for a qualifying message from user `u` in guild `g`
whose event day is `d`: an atomic upsert into `user_activity`. -/
def onMessage (g u d : Int) : List UserActivity → List UserActivity
  | [] => [insertRow g u d (weekStartOf d)]
  | r :: rest =>
      if rowMatches g u r then conflictUpdate r d (weekStartOf d) :: rest
      else r :: onMessage g u d rest

theorem conflictUpdate_guild_id (r : UserActivity) (d ws : Int) :
    (conflictUpdate r d ws).guild_id = r.guild_id := by
  unfold conflictUpdate; split <;> rfl

theorem conflictUpdate_user_id (r : UserActivity) (d ws : Int) :
    (conflictUpdate r d ws).user_id = r.user_id := by
  unfold conflictUpdate; split <;> rfl

theorem conflictUpdate_total_offline (r : UserActivity) (d ws : Int) :
    (conflictUpdate r d ws).total_offline = r.total_offline := by
  unfold conflictUpdate; split <;> rfl

theorem conflictUpdate_last (r : UserActivity) (d ws : Int) :
    (conflictUpdate r d ws).last_active_date = d := by
  unfold conflictUpdate; split
  · exact (by assumption)
  · rfl

theorem rowMatches_conflictUpdate (g u : Int) (r : UserActivity) (d ws : Int) :
    rowMatches g u (conflictUpdate r d ws) = rowMatches g u r := by
  unfold rowMatches
  rw [conflictUpdate_guild_id, conflictUpdate_user_id]

theorem rowMatches_insertRow (g u d ws : Int) :
    rowMatches g u (insertRow g u d ws) = true := by
  unfold rowMatches insertRow
  simp

/-- The lookup of `(g, u)` after the `on_message` upsert for `(g, u)` is the
updated row: the conflict update of the stored row when it existed, and the
freshly inserted row otherwise. -/
theorem findRow_onMessage (g u d : Int) (s : List UserActivity) :
    findRow g u (onMessage g u d s) =
      some (match findRow g u s with
            | some r => conflictUpdate r d (weekStartOf d)
            | none => insertRow g u d (weekStartOf d)) := by
  induction s with
  | nil =>
      simp [onMessage, findRow, rowMatches_insertRow]
  | cons r rest ih =>
      by_cases h : rowMatches g u r = true
      · simp [onMessage, findRow, h, rowMatches_conflictUpdate]
      · simp [onMessage, findRow, h, ih]

theorem conflictUpdate_self (r : UserActivity) (d ws : Int)
    (h : r.last_active_date = d) : conflictUpdate r d ws = r := by
  unfold conflictUpdate; simp [h]

theorem onMessage_idem (g u d : Int) (s : List UserActivity) :
    onMessage g u d (onMessage g u d s) = onMessage g u d s := by
  induction s with
  | nil =>
      simp [onMessage, rowMatches_insertRow,
        conflictUpdate_self (insertRow g u d (weekStartOf d)) d (weekStartOf d) rfl]
  | cons r rest ih =>
      by_cases h : rowMatches g u r = true
      · simp [onMessage, h, rowMatches_conflictUpdate,
          conflictUpdate_self _ d (weekStartOf d) (conflictUpdate_last r d (weekStartOf d))]
      · simp [onMessage, h, ih]

/-- The projection computed per returned row by the daily scan query
(src/main.py:192): `offline_days + (CURRENT_DATE - last_active_date)`. -/
def current_streak (r : UserActivity) (today : Int) : Int :=
  r.offline_days + (today - r.last_active_date)

/-- Claim C3: for every (guild, user) and every sequence of two or more
activity events with the same event date, all events after the first leave
the stored table completely unchanged — running the recorder `n + 1` times
on the same day yields exactly the state after the first run. -/
theorem recorder_same_day_idempotent (g u d : Int) (s : List UserActivity) (n : Nat) :
    (onMessage g u d)^[n + 1] s = onMessage g u d s := by
  induction n with
  | zero => rfl
  | succ n ih =>
      rw [Function.iterate_succ_apply', ih, onMessage_idem]

/-- Claim C4: the streak value computed by the alert-scan projection for a
record last active on day `D` with stored baseline `s`, evaluated on day
`D + k`, equals `s + k`: the read path re-derives the elapsed gap on top of
the persisted baseline. -/
theorem current_streak_rederives_gap (r : UserActivity) (k : Int) :
    current_streak r (r.last_active_date + k) = r.offline_days + k := by
  unfold current_streak; ring

/-- Counterexample to claim C2: starting from the empty table, a message on
day 4 stores a record with `offline_days = 0`; the next message on day 6
(a gap of 2 days, same week bucket) leaves `offline_days` at `0`, not at
the previous value plus 1 as the claim states. -/
theorem recorder_gap_not_incremented :
    (findRow 1 2 (onMessage 1 2 4 [])).map UserActivity.offline_days = some 0 ∧
    (6 : Int) - 4 ≥ 2 ∧
    (findRow 1 2 (onMessage 1 2 6 (onMessage 1 2 4 []))).map UserActivity.offline_days ≠
      some (0 + 1) := by
  decide

/-- Claim C2 as amended: for every existing (guild, user) record and every
activity event whose date exceeds the stored `last_active_date` by 2 or
more days, the recorder sets `last_active_date` to the event date and
leaves the stored offline counter unchanged when the event's week bucket
equals the stored one, resetting it to 0 otherwise — it never adds 1. -/
theorem recorder_gap_keeps_offline (s : List UserActivity) (g u e : Int)
    (r : UserActivity) (hfind : findRow g u s = some r)
    (hgap : r.last_active_date + 2 ≤ e) :
    ∃ r', findRow g u (onMessage g u e s) = some r' ∧
      r'.last_active_date = e ∧
      r'.offline_days = (if weekStartOf e = r.week_start then r.offline_days else 0) := by
  refine ⟨conflictUpdate r e (weekStartOf e), ?_, conflictUpdate_last r e (weekStartOf e), ?_⟩
  · rw [findRow_onMessage, hfind]
  · have hne : r.last_active_date ≠ e := by omega
    unfold conflictUpdate
    simp [hne]

theorem recorder_gap_keeps_offline_witness :
    ∃ r', findRow 1 2 (onMessage 1 2 6 (onMessage 1 2 4 [])) = some r' ∧
      r'.last_active_date = 6 ∧
      r'.offline_days = (if weekStartOf 6 = (4 : Int) then (0 : Int) else 0) :=
  recorder_gap_keeps_offline (onMessage 1 2 4 []) 1 2 6 ⟨1, 2, 4, 1, 0, 4, 1, 0⟩
    (by decide) (by decide)

/-- Counterexample to claim C5: a record last active on day 10 is moved
backward to day 5 by a recorder invocation whose event date is 5 — the
upsert's only guard is `last_active_date <> $3`, so an earlier event date
overwrites the stored later one. -/
theorem last_active_date_moves_backward :
    (findRow 1 2 (onMessage 1 2 10 [])).map UserActivity.last_active_date = some 10 ∧
    (findRow 1 2 (onMessage 1 2 5 (onMessage 1 2 10 []))).map UserActivity.last_active_date =
      some 5 ∧
    (5 : Int) < 10 := by
  decide

/-- Claim C5 as amended: for every stored (guild, user) record, a recorder
invocation whose event date is not earlier than the stored
`last_active_date` never decreases it; only an invocation with a strictly
earlier event date (clock skew) can move it backward. -/
theorem last_active_date_monotone (s : List UserActivity) (g u e : Int)
    (r r' : UserActivity) (hfind : findRow g u s = some r)
    (hle : r.last_active_date ≤ e)
    (hfind' : findRow g u (onMessage g u e s) = some r') :
    r.last_active_date ≤ r'.last_active_date := by
  rw [findRow_onMessage, hfind] at hfind'
  simp only [Option.some.injEq] at hfind'
  rw [← hfind', conflictUpdate_last]
  exact hle

theorem last_active_date_monotone_witness :
    (⟨1, 2, 4, 1, 0, 4, 1, 0⟩ : UserActivity).last_active_date ≤
      (⟨1, 2, 9, 2, 0, 4, 2, 0⟩ : UserActivity).last_active_date :=
  last_active_date_monotone (onMessage 1 2 4 []) 1 2 9 ⟨1, 2, 4, 1, 0, 4, 1, 0⟩
    ⟨1, 2, 9, 2, 0, 4, 2, 0⟩ (by decide) (by decide) (by decide)

/-- Embedding of the `weekly_reset` task's UPDATE (src/main.py:221-231): on
each tick with parameter day `d` (the code passes `datetime.date.today()`),
every row whose `week_start` differs from `d` has `online_days` and
`offline_days` set to 0 and `week_start` set to `d`; `total_online` and
`total_offline` are untouched. -/
def weeklyReset (d : Int) (s : List UserActivity) : List UserActivity :=
  s.map fun r =>
    if r.week_start = d then r
    else { r with online_days := 0, offline_days := 0, week_start := d }

/-- Embedding of the `retention_cleanup` task's DELETE (src/main.py:214-219):
rows with `last_active_date < cutoff` are removed. -/
def retentionCleanup (cutoff : Int) (s : List UserActivity) : List UserActivity :=
  s.filter fun r => decide (cutoff ≤ r.last_active_date)

/-- The `Counters` named tuple returned by `fetch_counters`
(src/main.py:387-393). -/
structure Counters where
  today_on : Int
  today_off : Int
  week_on : Int
  week_off : Int
  total_on : Int
  total_off : Int
deriving DecidableEq, Repr

/-- Embedding of `fetch_counters` (src/main.py:395-412), the read path of
the `/tgoo` command: an unrecorded user is reported offline today with one
offline week/lifetime unit; a recorded user's week and lifetime counters
are read straight from the stored row. -/
def fetch_counters (s : List UserActivity) (g u today : Int) : Counters :=
  match findRow g u s with
  | none => ⟨0, 1, 0, 1, 0, 1⟩
  | some r =>
      ⟨if r.last_active_date = today then 1 else 0,
       if r.last_active_date = today then 0 else 1,
       r.online_days, r.offline_days, r.total_online, r.total_offline⟩

/-- The `user_activity` states reachable from the empty table through the
program's three mutating operations: the `on_message` upsert, the
`weekly_reset` update and the `retention_cleanup` delete. -/
inductive Reachable : List UserActivity → Prop
  | empty : Reachable []
  | message (g u d : Int) (s : List UserActivity) : Reachable s → Reachable (onMessage g u d s)
  | reset (d : Int) (s : List UserActivity) : Reachable s → Reachable (weeklyReset d s)
  | cleanup (c : Int) (s : List UserActivity) : Reachable s → Reachable (retentionCleanup c s)

/-- The offline counters of a row are both zero. -/
def zeroOffline (r : UserActivity) : Prop :=
  r.offline_days = 0 ∧ r.total_offline = 0

theorem conflictUpdate_zeroOffline (r : UserActivity) (d ws : Int)
    (h : zeroOffline r) : zeroOffline (conflictUpdate r d ws) := by
  obtain ⟨h1, h2⟩ := h
  unfold conflictUpdate zeroOffline
  split
  · exact ⟨h1, h2⟩
  · refine ⟨?_, h2⟩
    simp [h1]

theorem onMessage_zeroOffline (g u d : Int) (s : List UserActivity)
    (h : ∀ r ∈ s, zeroOffline r) : ∀ r' ∈ onMessage g u d s, zeroOffline r' := by
  induction s with
  | nil =>
      intro r' hr'
      simp only [onMessage, List.mem_singleton] at hr'
      subst hr'
      exact ⟨rfl, rfl⟩
  | cons r rest ih =>
      intro r' hr'
      by_cases hm : rowMatches g u r = true
      · simp [onMessage, hm] at hr'
        rcases hr' with hr' | hr'
        · subst hr'
          exact conflictUpdate_zeroOffline r d (weekStartOf d) (h r (List.mem_cons_self r rest))
        · exact h r' (List.mem_cons_of_mem r hr')
      · simp [onMessage, hm] at hr'
        rcases hr' with hr' | hr'
        · subst hr'
          exact h r' (List.mem_cons_self r' rest)
        · exact ih (fun x hx => h x (List.mem_cons_of_mem r hx)) r' hr'

theorem weeklyReset_zeroOffline (d : Int) (s : List UserActivity)
    (h : ∀ r ∈ s, zeroOffline r) : ∀ r' ∈ weeklyReset d s, zeroOffline r' := by
  intro r' hr'
  simp only [weeklyReset, List.mem_map] at hr'
  obtain ⟨r, hr, hEq⟩ := hr'
  subst hEq
  split
  · exact h r hr
  · exact ⟨rfl, (h r hr).2⟩

theorem retentionCleanup_zeroOffline (c : Int) (s : List UserActivity)
    (h : ∀ r ∈ s, zeroOffline r) : ∀ r' ∈ retentionCleanup c s, zeroOffline r' := by
  intro r' hr'
  exact h r' (List.mem_of_mem_filter hr')

theorem reachable_zeroOffline (s : List UserActivity) (h : Reachable s) :
    ∀ r ∈ s, zeroOffline r := by
  induction h with
  | empty => intro r hr; cases hr
  | message g u d s _ ih => exact onMessage_zeroOffline g u d s ih
  | reset d s _ ih => exact weeklyReset_zeroOffline d s ih
  | cleanup c s _ ih => exact retentionCleanup_zeroOffline c s ih

theorem findRow_mem (g u : Int) (s : List UserActivity) (r : UserActivity)
    (h : findRow g u s = some r) : r ∈ s := by
  induction s with
  | nil => cases h
  | cons x rest ih =>
      by_cases hm : rowMatches g u x = true
      · simp only [findRow, hm, if_true, Option.some.injEq] at h
        rw [← h]
        exact List.mem_cons_self x rest
      · simp only [findRow, hm, if_false] at h
        exact List.mem_cons_of_mem x (ih h)

/-- Claim C10: no operation ever increments the stored offline counters —
in every reachable table state, every stored row has `offline_days = 0` and
`total_offline = 0`, the weekly and lifetime offline counts reported by
`/tgoo` for a recorded user are 0, and the `offline_days` baseline
contributes 0 to every streak computed by the alert scan. -/
theorem offline_counters_always_zero (s : List UserActivity) (h : Reachable s)
    (g u today : Int) (r : UserActivity) (hfind : findRow g u s = some r) :
    r.offline_days = 0 ∧ r.total_offline = 0 ∧
    (fetch_counters s g u today).week_off = 0 ∧
    (fetch_counters s g u today).total_off = 0 ∧
    current_streak r today = today - r.last_active_date := by
  obtain ⟨h1, h2⟩ := reachable_zeroOffline s h r (findRow_mem g u s r hfind)
  refine ⟨h1, h2, ?_, ?_, ?_⟩
  · simp only [fetch_counters, hfind]
    exact h1
  · simp only [fetch_counters, hfind]
    exact h2
  · unfold current_streak
    rw [h1]
    ring

theorem offline_counters_always_zero_witness :
    (fetch_counters (onMessage 1 2 4 []) 1 2 9).week_off = 0 ∧
    (fetch_counters (onMessage 1 2 4 []) 1 2 9).total_off = 0 :=
  ⟨(offline_counters_always_zero (onMessage 1 2 4 [])
      (Reachable.message 1 2 4 [] Reachable.empty) 1 2 9 ⟨1, 2, 4, 1, 0, 4, 1, 0⟩
      (by decide)).2.2.1,
   (offline_counters_always_zero (onMessage 1 2 4 [])
      (Reachable.message 1 2 4 [] Reachable.empty) 1 2 9 ⟨1, 2, 4, 1, 0, 4, 1, 0⟩
      (by decide)).2.2.2.1⟩

/-- A row of the `guild_settings` table (src/main.py:68-74), with the
schema's column defaults `role_ids = {}`, `alert_threshold = 7`,
`tz = UTC`. -/
structure GuildSettings where
  guild_id : Int
  report_channel_id : Option Int
  role_ids : List Int
  alert_threshold : Int
  tz : String
deriving DecidableEq, Repr

/-- Row predicate for the `guild_settings` primary key `guild_id`. -/
def settingsMatches (g : Int) (row : GuildSettings) : Bool :=
  decide (row.guild_id = g)

/-- Lookup of the `guild_settings` row for guild `g`; the primary key
guarantees at most one matching row. -/
def findSettings (g : Int) : List GuildSettings → Option GuildSettings
  | [] => none
  | row :: rest => if settingsMatches g row then some row else findSettings g rest

/-- The upsert of `slash_channelset` (src/main.py:288-292):
`INSERT INTO guild_settings(guild_id, report_channel_id)` applying the
column defaults of the schema when the row is absent, and
`ON CONFLICT (guild_id) DO UPDATE SET report_channel_id` otherwise. -/
def upsertChannel (g ch : Int) : List GuildSettings → List GuildSettings
  | [] => [⟨g, some ch, [], 7, "UTC"⟩]
  | row :: rest =>
      if settingsMatches g row then { row with report_channel_id := some ch } :: rest
      else row :: upsertChannel g ch rest

/-- The upsert of `slash_roleset` (src/main.py:311-315):
`INSERT INTO guild_settings(guild_id, role_ids)` with schema defaults when
the row is absent, and `ON CONFLICT (guild_id) DO UPDATE SET role_ids`
otherwise — the stored list is replaced wholesale. -/
def upsertRoles (g : Int) (rids : List Int) : List GuildSettings → List GuildSettings
  | [] => [⟨g, none, rids, 7, "UTC"⟩]
  | row :: rest =>
      if settingsMatches g row then { row with role_ids := rids } :: rest
      else row :: upsertRoles g rids rest

/-- The upsert of `slash_setthreshold` (src/main.py:343-347):
`INSERT INTO guild_settings(guild_id, alert_threshold)` with schema
defaults when the row is absent, and
`ON CONFLICT (guild_id) DO UPDATE SET alert_threshold` otherwise. -/
def upsertThreshold (g d : Int) : List GuildSettings → List GuildSettings
  | [] => [⟨g, none, [], d, "UTC"⟩]
  | row :: rest =>
      if settingsMatches g row then { row with alert_threshold := d } :: rest
      else row :: upsertThreshold g d rest

theorem findSettings_upsertChannel (g ch : Int) (s : List GuildSettings) :
    findSettings g (upsertChannel g ch s) =
      some (match findSettings g s with
            | some row => { row with report_channel_id := some ch }
            | none => ⟨g, some ch, [], 7, "UTC"⟩) := by
  induction s with
  | nil => simp [upsertChannel, findSettings, settingsMatches]
  | cons row rest ih =>
      by_cases hm : settingsMatches g row = true
      · have hg : row.guild_id = g := by simpa [settingsMatches] using hm
        simp [upsertChannel, findSettings, settingsMatches, hg]
      · simp [upsertChannel, findSettings, hm, ih]

theorem findSettings_upsertRoles (g : Int) (rids : List Int) (s : List GuildSettings) :
    findSettings g (upsertRoles g rids s) =
      some (match findSettings g s with
            | some row => { row with role_ids := rids }
            | none => ⟨g, none, rids, 7, "UTC"⟩) := by
  induction s with
  | nil => simp [upsertRoles, findSettings, settingsMatches]
  | cons row rest ih =>
      by_cases hm : settingsMatches g row = true
      · have hg : row.guild_id = g := by simpa [settingsMatches] using hm
        simp [upsertRoles, findSettings, settingsMatches, hg]
      · simp [upsertRoles, findSettings, hm, ih]

theorem findSettings_upsertThreshold (g d : Int) (s : List GuildSettings) :
    findSettings g (upsertThreshold g d s) =
      some (match findSettings g s with
            | some row => { row with alert_threshold := d }
            | none => ⟨g, none, [], d, "UTC"⟩) := by
  induction s with
  | nil => simp [upsertThreshold, findSettings, settingsMatches]
  | cons row rest ih =>
      by_cases hm : settingsMatches g row = true
      · have hg : row.guild_id = g := by simpa [settingsMatches] using hm
        simp [upsertThreshold, findSettings, settingsMatches, hg]
      · simp [upsertThreshold, findSettings, hm, ih]

/-- Claim C8: for every guild and every two successive role-set updates,
the stored `role_ids` after the second update is exactly the second list —
a wholesale replace, with no merge or union with the first list. -/
theorem roleset_wholesale_replace (s : List GuildSettings) (g : Int)
    (rids1 rids2 : List Int) (_hne : rids1 ≠ rids2) :
    (findSettings g (upsertRoles g rids2 (upsertRoles g rids1 s))).map
      GuildSettings.role_ids = some rids2 := by
  rw [findSettings_upsertRoles, findSettings_upsertRoles]
  cases findSettings g s <;> rfl

theorem roleset_wholesale_replace_witness :
    (findSettings 1 (upsertRoles 1 [20, 30] (upsertRoles 1 [10] []))).map
      GuildSettings.role_ids = some [20, 30] :=
  roleset_wholesale_replace [] 1 [10] [20, 30] (by decide)

/-- Claim C9: for a guild with an existing settings row, each of the three
single-field upserts (report channel, role list, alert threshold) changes
only the named field and leaves every other field of the row unchanged;
for a guild with no row, each upsert inserts a row with the schema's
default threshold 7 and defaults for the fields it does not name. -/
theorem settings_fields_update_independently (s : List GuildSettings)
    (g ch d : Int) (rids : List Int) :
    (∀ row, findSettings g s = some row →
      findSettings g (upsertChannel g ch s) =
        some { row with report_channel_id := some ch } ∧
      findSettings g (upsertRoles g rids s) = some { row with role_ids := rids } ∧
      findSettings g (upsertThreshold g d s) = some { row with alert_threshold := d }) ∧
    (findSettings g s = none →
      findSettings g (upsertChannel g ch s) = some ⟨g, some ch, [], 7, "UTC"⟩ ∧
      findSettings g (upsertRoles g rids s) = some ⟨g, none, rids, 7, "UTC"⟩ ∧
      findSettings g (upsertThreshold g d s) = some ⟨g, none, [], d, "UTC"⟩) := by
  constructor
  · intro row hrow
    rw [findSettings_upsertChannel, findSettings_upsertRoles, findSettings_upsertThreshold, hrow]
    exact ⟨rfl, rfl, rfl⟩
  · intro hnone
    rw [findSettings_upsertChannel, findSettings_upsertRoles, findSettings_upsertThreshold, hnone]
    exact ⟨rfl, rfl, rfl⟩

theorem settings_fields_update_independently_witness :
    (findSettings 1 (upsertChannel 1 50 [⟨1, none, [9], 12, "UTC"⟩]) =
        some ⟨1, some 50, [9], 12, "UTC"⟩ ∧
      findSettings 1 (upsertRoles 1 [3] [⟨1, none, [9], 12, "UTC"⟩]) =
        some ⟨1, none, [3], 12, "UTC"⟩ ∧
      findSettings 1 (upsertThreshold 1 30 [⟨1, none, [9], 12, "UTC"⟩]) =
        some ⟨1, none, [9], 30, "UTC"⟩) ∧
    (findSettings 2 (upsertChannel 2 50 []) = some ⟨2, some 50, [], 7, "UTC"⟩ ∧
      findSettings 2 (upsertRoles 2 [3] []) = some ⟨2, none, [3], 7, "UTC"⟩ ∧
      findSettings 2 (upsertThreshold 2 30 []) = some ⟨2, none, [], 30, "UTC"⟩) :=
  ⟨(settings_fields_update_independently [⟨1, none, [9], 12, "UTC"⟩] 1 50 30 [3]).1
      ⟨1, none, [9], 12, "UTC"⟩ (by decide),
   (settings_fields_update_independently [] 2 50 30 [3]).2 (by decide)⟩

/-- A Discord embed as built by `royal_embed` (src/main.py:98-104): title,
colour and description (footer and thumbnail are presentation-only). -/
structure Embed where
  title : String
  color : Int
  desc : Option String
deriving DecidableEq, Repr

/-- Embedding of `royal_embed` (src/main.py:98-104). -/
def royal_embed (title : String) (color : Int) (desc : Option String) : Embed :=
  ⟨"👑 " ++ title, color, desc⟩

/-- Embedding of the `error` embed helper (src/main.py:106-107). -/
def error (txt : String) : Embed :=
  royal_embed "❌ Error" 0xE74C3C (some txt)

/-- Failure of a Python call. -/
inductive PyError
  | malformedDef
deriving DecidableEq, Repr

/-- Embedding of `success` (src/main.py:109).  The source line is
`def success(txt: str) -> royal_embed(..., txt)` with no colon and no
function body following it (the next lines are a comment and the help
command), so the definition is not a well-formed function — its return
annotation even references its own parameter `txt` — and no call to it
can ever produce an embed: every invocation fails. -/
def success (_txt : String) : Except PyError Embed :=
  Except.error PyError.malformedDef

/-- A Discord role as seen by `slash_roleset`: its identifier and the two
flags the handler filters on. -/
structure Role where
  id : Int
  is_default : Bool
  managed : Bool
deriving DecidableEq, Repr

/-- The role filter of `slash_roleset` (src/main.py:306): keep the provided
roles that are present and neither the guild default role nor managed. -/
def validRoles (given : List (Option Role)) : List Role :=
  given.filterMap fun o =>
    match o with
    | some r => if !r.is_default && !r.managed then some r else none
    | none => none

/-- Embedding of `slash_channelset` (src/main.py:284-293): after the
permission check, upsert the report channel and reply with a success
embed.  The returned pair is the settings table after the command and the
reply it attempts to send. -/
def slash_channelset (manage_guild : Bool) (g ch : Int) (s : List GuildSettings) :
    List GuildSettings × Except PyError Embed :=
  if !manage_guild then (s, Except.ok (error "Manage Server permission required"))
  else (upsertChannel g ch s,
        success ("Alerts will be proclaimed in <#" ++ toString ch ++ ">"))

/-- Embedding of `slash_roleset` (src/main.py:298-317): permission check,
role filter with its empty-selection rejection, wholesale role upsert and
success reply. -/
def slash_roleset (manage_guild : Bool) (g : Int) (given : List (Option Role))
    (s : List GuildSettings) : List GuildSettings × Except PyError Embed :=
  if !manage_guild then (s, Except.ok (error "Manage Server permission required"))
  else
    let roles := validRoles given
    if roles = [] then (s, Except.ok (error "Select at least one valid role"))
    else
      (upsertRoles g (roles.map Role.id) s,
       success ("Noble roles updated:\n" ++
         String.intercalate " " (roles.map fun r => "<@&" ++ toString r.id ++ ">")))

/-- Embedding of `slash_setthreshold` (src/main.py:339-348): permission
check, threshold upsert and success reply. -/
def slash_setthreshold (manage_guild : Bool) (g d : Int) (s : List GuildSettings) :
    List GuildSettings × Except PyError Embed :=
  if !manage_guild then (s, Except.ok (error "Manage Server permission required"))
  else (upsertThreshold g d s,
        success ("Alert threshold set to **" ++ toString d ++ " days**"))

/-- The reply `slash_listinactive` attempts when nobody is inactive
(src/main.py:363). -/
def listinactiveEmptyReply : Except PyError Embed :=
  success "Everyone served the crown today! 🎉"

/-- The reply `slash_active` attempts when nobody was active
(src/main.py:381). -/
def activeEmptyReply : Except PyError Embed :=
  success "No one has served today."

/-- Claim C6: no success-path reply is ever produced — `success` fails for
every input, so the success replies of `channelset`, of `roleset` whenever
at least one valid role was selected, of `setthreshold`, and the
empty-result replies of `listinactive` and `active` all fail instead of
returning an embed. -/
theorem success_replies_never_produced (txt : String) (g ch d : Int)
    (given : List (Option Role)) (s : List GuildSettings) :
    success txt = Except.error PyError.malformedDef ∧
    (slash_channelset true g ch s).2 = Except.error PyError.malformedDef ∧
    (validRoles given ≠ [] →
      (slash_roleset true g given s).2 = Except.error PyError.malformedDef) ∧
    (slash_setthreshold true g d s).2 = Except.error PyError.malformedDef ∧
    listinactiveEmptyReply = Except.error PyError.malformedDef ∧
    activeEmptyReply = Except.error PyError.malformedDef := by
  refine ⟨rfl, rfl, ?_, rfl, rfl, rfl⟩
  intro h
  simp [slash_roleset, success, h]

theorem success_replies_never_produced_witness :
    (slash_roleset true 1 [some ⟨5, false, false⟩] []).2 =
      Except.error PyError.malformedDef :=
  (success_replies_never_produced "x" 1 2 3 [some ⟨5, false, false⟩] []).2.2.1
    (by decide)

/-- Decimal value of a digit run (most significant digit first). -/
def digitsVal (cs : List Char) : Nat :=
  cs.foldl (fun acc c => acc * 10 + (c.toNat - 48)) 0

/-- Modelled Postgres `interval` literal parsing, restricted to the
`<n> days` form the scan query's author intended: a non-empty run of
digits followed by the word `days`.  Anything else — in particular the
literal `%s days` that the program actually sends, because the Python
`%s` placeholder in the query string is never substituted — is rejected,
which Postgres reports as invalid input syntax for type interval. -/
def parseIntervalDays (lit : String) : Option Nat :=
  let cs := lit.data
  let digits := cs.takeWhile Char.isDigit
  let rest := cs.dropWhile Char.isDigit
  if digits = [] then none
  else if rest = [' ', 'd', 'a', 'y', 's'] then some (digitsVal digits) else none

/-- The `ORDER BY current_streak DESC` of the scan query; SQL specifies no
tie-break, modelled as a stable sort on the streak alone. -/
def sortByStreakDesc (rows : List (Int × Int)) : List (Int × Int) :=
  rows.insertionSort fun a b => b.2 ≤ a.2

/-- Semantics of the per-guild scan query text of `midnight_scan`
(src/main.py:190-196): `SELECT user_id, offline_days + (CURRENT_DATE -
last_active_date) AS current_streak FROM user_activity WHERE guild_id=$1
AND last_active_date <= CURRENT_DATE - INTERVAL lit ORDER BY
current_streak DESC`, with `$1 := p1`; an unparsable interval literal
makes the whole query fail. -/
def scanQuery (table : List UserActivity) (p1 : Int) (lit : String) (today : Int) :
    Except String (List (Int × Int)) :=
  match parseIntervalDays lit with
  | none => Except.error ("invalid input syntax for type interval: " ++ lit)
  | some d =>
      Except.ok (sortByStreakDesc
        ((table.filter fun r =>
            decide (r.guild_id = p1 ∧ r.last_active_date ≤ today - (d : Int))).map
          fun r => (r.user_id, current_streak r today)))

/-- The scan query exactly as `midnight_scan` issues it (src/main.py:190-196):
the Python passes `thresh` as the only query parameter — binding it to the
`guild_id=$1` comparison, not to the interval — and never applies
`%`-formatting to the query string, so the interval literal sent to the
database is the placeholder text `%s days` itself. -/
def listInactiveAsOf (table : List UserActivity) (thresh : Int) (today : Int) :
    Except String (List (Int × Int)) :=
  scanQuery table thresh "%s days" today

theorem parse_scan_interval_fails : parseIntervalDays "%s days" = none := by
  decide

theorem listInactiveAsOf_raises (table : List UserActivity) (thresh today : Int) :
    listInactiveAsOf table thresh today =
      Except.error "invalid input syntax for type interval: %s days" := by
  unfold listInactiveAsOf scanQuery
  rw [parse_scan_interval_fails]
  rfl

/-- Claim C1 (code defect): evaluated on a concrete store — one user in
guild 5 last active on day 0, threshold 7, queried on day 20, far past the
threshold — the daily scan's listing query returns no listing at all: the
threshold is bound to the `guild_id=$1` placeholder and the interval
literal `%s days` is rejected by the database, so the query raises instead
of producing the guild-restricted, threshold-filtered, streak-ordered
listing the claim describes. -/
theorem scan_listing_query_raises :
    listInactiveAsOf [⟨5, 3, 0, 1, 0, 0, 1, 0⟩] 7 20 =
      Except.error "invalid input syntax for type interval: %s days" :=
  listInactiveAsOf_raises [⟨5, 3, 0, 1, 0, 0, 1, 0⟩] 7 20

/-- The gateway environment `midnight_scan` consults: which guild
identifiers resolve (`bot.get_guild`) and which (guild, channel) pairs
resolve to a text channel (`guild.get_channel` plus the `isinstance`
check). -/
structure Env where
  hasGuild : Int → Bool
  hasTextChannel : Int → Int → Bool

/-- One tick of `midnight_scan` (src/main.py:174-212) over the settings
rows that have a configured report channel (the settings fetch filters
`WHERE report_channel_id IS NOT NULL`, modelled by skipping `none`):
skip unreachable guilds and unresolvable channels, run the inactivity
query, skip the guild when the result set is empty, and send one alert to
the configured channel otherwise.  The loop body has no exception
handling, so a raised query error aborts the tick.  The result collects
the channels a message was sent to, and whether the tick was aborted by a
raised error. -/
def midnightScan (env : Env) (table : List UserActivity) (today : Int) :
    List GuildSettings → List Int × Bool
  | [] => ([], false)
  | row :: rest =>
      match row.report_channel_id with
      | none => midnightScan env table today rest
      | some ch =>
          if env.hasGuild row.guild_id then
            if env.hasTextChannel row.guild_id ch then
              match listInactiveAsOf table row.alert_threshold today with
              | Except.error _ => ([], true)
              | Except.ok rows =>
                  if rows.isEmpty then midnightScan env table today rest
                  else
                    let r := midnightScan env table today rest
                    (ch :: r.1, r.2)
            else midnightScan env table today rest
          else midnightScan env table today rest

/-- Claim C7: the daily scan sends no alert message for guilds without a
configured report channel (they are filtered out before any query) and
none for guilds whose inactive listing is empty — indeed, as issued it
sends no message to any channel at all, because the first listing query of
a tick raises (the interval-literal defect) and aborts the tick before any
send. -/
theorem midnight_scan_sends_nothing (env : Env) (table : List UserActivity)
    (today : Int) (settings : List GuildSettings) :
    (midnightScan env table today settings).1 = [] := by
  induction settings with
  | nil => rfl
  | cons row rest ih =>
      cases hch : row.report_channel_id with
      | none => simp [midnightScan, hch, ih]
      | some ch =>
          by_cases hg : env.hasGuild row.guild_id = true
          · by_cases hc : env.hasTextChannel row.guild_id ch = true
            · simp [midnightScan, hch, hg, hc,
                listInactiveAsOf_raises table row.alert_threshold today]
            · simp [midnightScan, hch, hg, hc, ih]
          · simp [midnightScan, hch, hg, ih]

end RoyalActivity
